import Mathlib

/-!
Verification of the conversation/session bookkeeping core of the
FastAPI chat backend: a shallow embedding of the database-utility layer
(`backend/db_utils.py`), the chat orchestrator (`backend/chat_service.py`),
the model gateway (`model/ai_agents.py`) and the OTP verifier
(`backend/auth.py`), with theorems for the specified properties.

Modelling conventions:
- `datetime.utcnow()` is modelled as a `Nat` clock value supplied by the
  caller; successive top-level operations receive strictly increasing clocks.
- SQLAlchemy sessions are modelled as explicit state passing over a `DB`
  record of row lists; a committed transaction is a returned `DB` value and
  a rollback returns the input `DB` unchanged.
- `HTTPException` is a status code plus detail string; `raise` is `Except.error`.
-/

/-- A single-quote character, used to build Python message strings verbatim. -/
def sgq : String := (Char.ofNat 39).toString

/-- Python `str.strip()`: drop leading and trailing whitespace. -/
def pyStrip (s : String) : String :=
  ⟨((s.data.dropWhile Char.isWhitespace).reverse.dropWhile Char.isWhitespace).reverse⟩

/-- Python `str.upper()`. -/
def pyToUpper (s : String) : String := ⟨s.data.map Char.toUpper⟩

/-- Python `str.startswith(pre)`. -/
def pyStartsWith (s pre : String) : Bool := pre.data.isPrefixOf s.data

/-- Python `str.endswith(suf)`. -/
def pyEndsWith (s suf : String) : Bool := suf.data.isSuffixOf s.data

/-- `DB/models.py ConversationStatus` -/
inductive ConversationStatus where
  | ACTIVE
  | ARCHIVED
deriving Repr, DecidableEq

/-- `DB/models.py MessageRole` -/
inductive MessageRole where
  | USER
  | ASSISTANT
  | SYSTEM
deriving Repr, DecidableEq

/-- `DB/models.py ThemeType` -/
inductive ThemeType where
  | LIGHT
  | DARK
deriving Repr, DecidableEq

/-- `fastapi.HTTPException`: status code and detail payload. -/
structure HTTPError where
  status_code : Nat
  detail : String
deriving Repr, DecidableEq

/-- An error escaping a service call: an `HTTPException` raised on
purpose, or an uncaught Python exception — a `TypeError` from a call that
binds an unexpected keyword, or a `LookupError` from SQLAlchemy enum
result processing. Uncaught exceptions surface as 500s at the endpoint. -/
inductive PyError where
  | http (e : HTTPError)
  | typeError (msg : String)
  | lookupError (msg : String)
deriving Repr, DecidableEq

/-- Row of the `Users` table (fields the core logic reads). -/
structure UserRow where
  user_id : Nat
  username : String
  email : String
  is_deleted : Bool
  last_login : Option Nat
deriving Repr, DecidableEq

/-- Row of the `Conversations` table. -/
structure Conversation where
  conversation_id : Nat
  user_id : Nat
  title : String
  status : ConversationStatus
  last_activity : Nat
  is_deleted : Bool
deriving Repr, DecidableEq

/-- Row of the `Messages` table. -/
structure Message where
  message_id : Nat
  conversation_id : Nat
  user_id : Option Nat
  role : MessageRole
  message_text : String
  timestamp : Nat
  response_time_ms : Option Nat
  token_count : Option Nat
  model_used : Option String
deriving Repr, DecidableEq

/-- Row of the `User_Settings` table. The `theme` column is
`Enum(ThemeType)`: the database stores a string, normally a member NAME
("LIGHT"/"DARK"); with `validate_strings=False` (the default) a raw
string assigned by the application is written through unvalidated. -/
structure UserSettings where
  setting_id : Nat
  user_id : Nat
  theme : String
  preferred_model : String
  language_preference : String
  notifications_enabled : Bool
deriving Repr, DecidableEq

/-- The relational store, with autoincrement counters for primary keys. -/
structure DB where
  users : List UserRow
  conversations : List Conversation
  messages : List Message
  settings : List UserSettings
  next_conversation_id : Nat
  next_message_id : Nat
  next_setting_id : Nat
deriving Repr, DecidableEq

/-- `db_utils.validate_user_exists` filter: `user_id` matches and not deleted. -/
def findActiveUser (db : DB) (uid : Nat) : Option UserRow :=
  db.users.find? fun u => u.user_id == uid && !u.is_deleted

/-- The 404 raised by `db_utils.validate_user_exists`. -/
def userNotFoundError (uid : Nat) : HTTPError :=
  ⟨404, "User with ID " ++ toString uid ++ " not found or is deleted"⟩

/-- Result processing of a loaded `theme` column:
`Enum(ThemeType)._object_value_for_elem` maps the stored string to the
member by NAME; any other stored string raises `LookupError`. -/
def themeOfName : String → Option ThemeType
  | "LIGHT" => some ThemeType.LIGHT
  | "DARK" => some ThemeType.DARK
  | _ => none

/-- The `LookupError` message of enum result processing (its tail, naming
the enum and the possible values, is elided). -/
def enumLookupErrorMsg (v : String) : String :=
  sgq ++ v ++ sgq ++ " is not among the defined enum values"

/-- `db_utils.get_user_settings`: return the settings row if one loads, or
create the default row. The source passes the raw string "light" — the
enum VALUE, not the member name "LIGHT" — for the `Enum(ThemeType)`
column: the bind passes unvalidated strings through and the INSERT
commits the malformed row, but the `session.refresh` that follows
re-selects it and its result processing raises `LookupError`, which the
`except SQLAlchemyError` handler does not catch — the call raises after
persisting the row. Loading an existing row converts its stored theme the
same way. The column defaults `language_preference="English"` and
`notifications_enabled=True` apply at insert. -/
def get_user_settings (db : DB) (uid : Nat) : Except PyError UserSettings × DB :=
  match findActiveUser db uid with
  | none => (.error (.http (userNotFoundError uid)), db)
  | some _ =>
    match db.settings.find? (fun s => s.user_id == uid) with
    | some s =>
      match themeOfName s.theme with
      | some _ => (.ok s, db)
      | none => (.error (.lookupError (enumLookupErrorMsg s.theme)), db)
    | none =>
      let s : UserSettings :=
        ⟨db.next_setting_id, uid, "light", "llama3.2:3b", "English", true⟩
      let db1 : DB := { db with settings := db.settings ++ [s],
                                next_setting_id := db.next_setting_id + 1 }
      match themeOfName s.theme with
      | some _ => (.ok s, db1)
      | none => (.error (.lookupError (enumLookupErrorMsg s.theme)), db1)

/-- `conversation.last_activity = datetime.utcnow()` on the row `cid`. -/
def bumpConv (cid t : Nat) (l : List Conversation) : List Conversation :=
  l.map fun c => if c.conversation_id == cid then { c with last_activity := t } else c

/-- `self.conversation.status = "archived"` on the row `cid`
(`chat_service.create_new_conversation`). -/
def archiveConv (cid : Nat) (l : List Conversation) : List Conversation :=
  l.map fun c => if c.conversation_id == cid then { c with status := .ARCHIVED } else c

/-- The specific-conversation lookup of `get_or_create_conversation`:
id matches, owned by the user, not soft-deleted. -/
def findOwnedConv (db : DB) (uid cid : Nat) : Option Conversation :=
  db.conversations.find? fun c =>
    c.conversation_id == cid && c.user_id == uid && !c.is_deleted

/-- Filter of the active-conversation search:
`user_id` matches, `status == ACTIVE`, not soft-deleted. -/
def isActiveFor (uid : Nat) (c : Conversation) : Bool :=
  c.user_id == uid && c.status == ConversationStatus.ACTIVE && !c.is_deleted

/-- The user's active, non-deleted conversations in storage order. -/
def activeConvsOf (db : DB) (uid : Nat) : List Conversation :=
  db.conversations.filter (isActiveFor uid)

/-- `ORDER BY last_activity DESC ... first()`: the row with the greatest
`last_activity` (ties resolved to the earlier row; the database leaves
tie order unspecified). -/
def pickLatest : List Conversation → Option Conversation
  | [] => none
  | c :: cs =>
    match pickLatest cs with
    | none => some c
    | some d => if d.last_activity > c.last_activity then some d else some c

/-- `db_utils.get_or_create_conversation`. `t` is the current clock.
`conversation_id = 0` is falsy in Python, hence skipped like `None`. -/
def get_or_create_conversation (db : DB) (t : Nat) (uid : Nat)
    (conversation_id : Option Nat) (title : String) :
    Except HTTPError Conversation × DB :=
  match findActiveUser db uid with
  | none => (.error (userNotFoundError uid), db)
  | some _ =>
    let viaSearch : Except HTTPError Conversation × DB :=
      match pickLatest (activeConvsOf db uid) with
      | some c => (.ok c, db)
      | none =>
        let c : Conversation :=
          ⟨db.next_conversation_id, uid, title, ConversationStatus.ACTIVE, t, false⟩
        (.ok c, { db with conversations := db.conversations ++ [c],
                          next_conversation_id := db.next_conversation_id + 1 })
    match conversation_id with
    | some cid =>
      if cid ≠ 0 then
        match findOwnedConv db uid cid with
        | some c =>
          (.ok { c with last_activity := t },
           { db with conversations := bumpConv cid t db.conversations })
        | none => viaSearch
      else viaSearch
    | none => viaSearch

/-- The `role` argument of `save_message`: `Union[MessageRole, str]`. -/
inductive RoleArg where
  | str (s : String)
  | enum (r : MessageRole)
deriving Repr, DecidableEq

/-- `MessageRole[role.upper()]` with `KeyError` turned into `ValueError`. -/
def parseRole : RoleArg → Except String MessageRole
  | .enum r => .ok r
  | .str s =>
    match pyToUpper s with
    | "USER" => .ok .USER
    | "ASSISTANT" => .ok .ASSISTANT
    | "SYSTEM" => .ok .SYSTEM
    | _ => .error ("Invalid message role: " ++ s)

/-- The conversation lookup of `save_message`: id matches and not
soft-deleted (no owner check in the source). -/
def findConvForSave (db : DB) (cid : Nat) : Option Conversation :=
  db.conversations.find? fun c => c.conversation_id == cid && !c.is_deleted

/-- `db_utils.save_message`: validate text and role, lock and bump the
parent conversation, insert the message; every `ValueError` becomes an
HTTP 400 after rollback. `t` is the current clock (both `utcnow()` calls
inside the function). -/
def save_message (db : DB) (t : Nat) (conversation_id : Nat) (user_id : Option Nat)
    (role : RoleArg) (message_text : String)
    (response_time_ms : Option Nat) (token_count : Option Nat)
    (model_used : Option String) : Except HTTPError Message × DB :=
  if message_text == "" || pyStrip message_text == "" then
    (.error ⟨400, "Message text cannot be empty"⟩, db)
  else
    match parseRole role with
    | .error e => (.error ⟨400, e⟩, db)
    | .ok r =>
      match findConvForSave db conversation_id with
      | none =>
        (.error ⟨400, "Conversation " ++ toString conversation_id ++ " not found"⟩, db)
      | some _ =>
        let m : Message :=
          ⟨db.next_message_id, conversation_id, user_id, r, message_text, t,
           response_time_ms, token_count, model_used⟩
        (.ok m, { db with messages := db.messages ++ [m],
                          conversations := bumpConv conversation_id t db.conversations,
                          next_message_id := db.next_message_id + 1 })

/-- `model/ai_agents.py available_models` (key, resolved name). -/
def available_models : List (String × String) :=
  [("llama3.2:3b", "llama3.2:3b"), ("gemma3", "gemma3")]

/-- `backend/config.py OLLAMA_REMOTE_URL` default value. -/
def OLLAMA_REMOTE_URL : String := "http://localhost:11434/api/generate"

/-- `ChatAgent.system_prompt` (triple-quoted string in the source,
including its embedded indentation). -/
def systemPromptText : String :=
  "You are a helpful and knowledgeable AI assistant.\n        Provide clear, accurate, and well-structured responses.\n        If you" ++ sgq ++ "re unsure about something, admit it."

/-- Role stored in an agent history entry: `ChatAgent.chat` stores the
strings "user"/"assistant", while `switch_conversation`/`update_model`
store the `MessageRole` enum members; the two never compare equal
(in Python an enum member is not equal to a string). -/
inductive HistRole where
  | str (s : String)
  | enum (r : MessageRole)
deriving Repr, DecidableEq

/-- One entry of `ChatAgent.conversation_history` (wall-clock strings of
`datetime.now().isoformat()` / `strftime` are abstracted to opaque text). -/
structure HistEntry where
  role : HistRole
  content : String
  timestamp : String
deriving Repr, DecidableEq

/-- In-memory state of `ChatAgent` (the opaque Ollama `context` array is
a list of numbers, never interpreted locally). -/
structure ChatAgent where
  model_name : String
  context : List Nat
  system_prompt : String
  conversation_history : List HistEntry
deriving Repr, DecidableEq

/-- Outcome of the single `requests.post` to the inference endpoint,
an external input to the gateway. `success` is an HTTP 200 whose JSON
carries a `response` field (and optionally a `context` array);
`missingResponseField` is an HTTP 200 whose parsed JSON lacks `response`
(`raw` stands for the printed JSON dict). -/
inductive OllamaOutcome where
  | success (response : String) (ctx : Option (List Nat))
  | missingResponseField (raw : String)
  | jsonDecodeError (msg : String)
  | connectionError (msg : String)
  | requestError (msg : String)
  | unexpectedError (msg : String)
deriving Repr, DecidableEq

/-- The error string `_call_ollama` produces for each failed outcome,
verbatim from the source. -/
def OllamaOutcome.errorText : OllamaOutcome → String
  | .success r _ => r
  | .missingResponseField raw =>
    "No " ++ sgq ++ "response" ++ sgq ++ " field in Ollama API response: " ++ raw
  | .jsonDecodeError m => "Error decoding JSON from response: " ++ m
  | .connectionError m =>
    "Failed to connect to Ollama API at " ++ OLLAMA_REMOTE_URL ++ ": " ++ m
  | .requestError m => "Error calling Ollama API: " ++ m
  | .unexpectedError m => "Unexpected error in Ollama API call: " ++ m

/-- `ChatAgent._call_ollama`: returns the `response` field on success
(saving the returned `context` for the next call), and the printed error
message on every failure — the function never raises. The prompt is sent
to the server and does not influence the modelled outcome. -/
def ChatAgent.call_ollama (agent : ChatAgent) (_prompt : String)
    (outcome : OllamaOutcome) : String × ChatAgent :=
  match outcome with
  | .success r ctx =>
    (r, { agent with context := match ctx with | some c => c | none => agent.context })
  | o => (o.errorText, agent)

/-- Python `hist[-n:]`: the last `n` entries, except that `n = 0` yields
the whole list (`hist[-0:] = hist[0:]`). -/
def pySliceLast (n : Nat) (l : List α) : List α :=
  if n == 0 then l else l.drop (l.length - n)

/-- The prompt-building loop of `ChatAgent.chat`: "User: "/"Assistant: "
prefixed lines of the last `context_length` history entries (only entries
whose role is the string "user" get the "User: " prefix). -/
def buildContextLines (hist : List HistEntry) (context_length : Nat) : List String :=
  (pySliceLast context_length hist).map fun m =>
    (if m.role == HistRole.str "user" then "User: " else "Assistant: ") ++ m.content

/-- `ChatAgent.chat`: append the user turn to the in-memory history, build
the prompt, call Ollama, and append the assistant turn when the reply text
is non-empty (Python truthiness). -/
def ChatAgent.chat (agent : ChatAgent) (message : String) (context_length : Nat)
    (outcome : OllamaOutcome) : String × ChatAgent :=
  let userEntry : HistEntry := ⟨HistRole.str "user", message, ""⟩
  let agent1 := { agent with conversation_history :=
    agent.conversation_history ++ [userEntry] }
  let prompt0 := String.intercalate "\n"
    (buildContextLines agent1.conversation_history context_length)
  let prompt1 := if pyEndsWith prompt0 message then prompt0
    else prompt0 ++ "\nUser: " ++ message
  let prompt := prompt1 ++ "\nAssistant:"
  let res := agent1.call_ollama prompt outcome
  if res.1 != "" then
    let asstEntry : HistEntry := ⟨HistRole.str "assistant", res.1, ""⟩
    (res.1, { res.2 with conversation_history :=
      res.2.conversation_history ++ [asstEntry] })
  else
    ("No response received from Ollama", res.2)

/-- In-memory state of `ChatService` (the per-request orchestrator):
the tracked conversation row, the settings row, and the agent. -/
structure ChatService where
  user_id : Nat
  conversation : Conversation
  settings : UserSettings
  agent : ChatAgent
deriving Repr, DecidableEq

/-- The fallback of `chat_service.send_message` for an agent text that is
empty or starts with "Error" (unreachable there: the preceding
`save_message` call raises first, see `saveMessageDbKwError`). -/
def fallbackKB : String :=
  "I" ++ sgq ++ "m sorry, I" ++ sgq ++ "m having trouble connecting to my knowledge base right now. Please try again later."

/-- The fallback of the `except Exception` branch of `send_message`
(doubly unreachable: the earlier `save_message` call raises, and
`ChatAgent.chat` catches every exception internally anyway). -/
def fallbackErr : String :=
  "I" ++ sgq ++ "m sorry, I encountered an error while processing your request. Please try again later."

/-- `check_user_subscription(...)["details"]["context_length"]`: the dummy
subscription helper always reports the free plan with context length 20. -/
def subscriptionContextLength : Nat := 20

/-- Return payload of `ChatService.send_message`. -/
structure SendResult where
  message_id : Nat
  content : String
  timestamp : Nat
  response_time_ms : Nat
deriving Repr, DecidableEq

/-- The exception of `chat_service.send_message`'s `save_message` calls.
`db_utils.save_message` is decorated with `@with_db_session`
(DB/database.py): the wrapper `wrapper(*args, **kwargs)` opens a session,
sets `kwargs['user_id'] = args[0] if args else None` and
`kwargs['session'] = session`, and calls `func(**kwargs)`.
`chat_service.send_message` invokes it with the keyword `db=self.db`
(and no positional arguments, so the passed `user_id` is also clobbered
to None); `db_utils.save_message` has no `db` parameter, so Python raises
TypeError at the call, before the function body runs. The wrapper's
`except Exception` rolls the fresh session back and re-raises; TypeError
is not a retryable database error, so it propagates. No row is read or
written. -/
def saveMessageDbKwError : PyError :=
  .typeError ("save_message() got an unexpected keyword argument " ++ sgq ++ "db" ++ sgq)

/-- `ChatService.send_message`: after the dummy subscription check and the
`time.time()` read, the first statement calls the decorated `save_message`
with `db=self.db`, which raises TypeError inside the wrapper (see
`saveMessageDbKwError`). The exception propagates out of `send_message`
with the database unchanged: the rest of the method — the agent call, the
fallback substitution and the assistant `save_message` — is unreachable.
The clock and outcome parameters document the turn's intended inputs;
none of them is consulted before the raise. -/
def ChatService.send_message (svc : ChatService) (db : DB) (_t0 _t1 : Nat)
    (_outcome : OllamaOutcome) (_message_text : String) :
    Except PyError SendResult × ChatService × DB :=
  (.error saveMessageDbKwError, svc, db)

/-- Messages of one conversation in storage (insertion) order
(`Message.conversation_id == conversation_id`). -/
def msgsOf (db : DB) (cid : Nat) : List Message :=
  db.messages.filter fun m => m.conversation_id == cid

/-- `ORDER BY Message.timestamp` ascending, modelled as a stable sort. -/
def orderByTimestamp (l : List Message) : List Message :=
  l.mergeSort fun a b => a.timestamp ≤ b.timestamp

/-- `ChatService.get_conversation_history`: the current conversation's
messages ordered by timestamp ascending (the dict projection keeps the
same fields, so the rows themselves are returned). -/
def ChatService.get_conversation_history (svc : ChatService) (db : DB) : List Message :=
  orderByTimestamp (msgsOf db svc.conversation.conversation_id)

/-- History entries loaded from the database by `switch_conversation` and
`update_model`: rows ordered by timestamp, role kept as the enum member. -/
def loadHistory (db : DB) (cid : Nat) : List HistEntry :=
  (orderByTimestamp (msgsOf db cid)).map fun m =>
    ⟨HistRole.enum m.role, m.message_text, toString m.timestamp⟩

/-- `ChatService.create_new_conversation`: archive the tracked conversation
(committed), then resolve a conversation again and reset the agent history.
A resolver failure propagates after the archive commit. -/
def ChatService.create_new_conversation (svc : ChatService) (db : DB) (t : Nat) :
    Except HTTPError Unit × ChatService × DB :=
  let convs1 := archiveConv svc.conversation.conversation_id db.conversations
  let db1 := { db with conversations := convs1 }
  let svc1 := { svc with conversation := { svc.conversation with status := .ARCHIVED } }
  match get_or_create_conversation db1 t svc.user_id none "New Conversation" with
  | (.error e, db2) => (.error e, svc1, db2)
  | (.ok c, db2) =>
    let agent2 := { svc1.agent with conversation_history := ([] : List HistEntry) }
    (.ok (), { svc1 with conversation := c, agent := agent2 }, db2)

/-- `ChatService.switch_conversation`: look the conversation up by id and
owner (deleted and archived rows included — the source has no such filter),
make it current and load its history into the agent. No database write. -/
def ChatService.switch_conversation (svc : ChatService) (db : DB) (cid : Nat) :
    Bool × ChatService :=
  match db.conversations.find? (fun c =>
      c.conversation_id == cid && c.user_id == svc.user_id) with
  | none => (false, svc)
  | some c =>
    let agent1 := { svc.agent with conversation_history := loadHistory db cid }
    (true, { svc with conversation := c, agent := agent1 })

/-- `UserSettings.validate_model`: an empty model name falls back to the
default at assignment. -/
def validModelOr (model : String) : String :=
  if model == "" then "llama3.2:3b" else model

/-- The settings-row update committed by `update_model`
(`self.settings.preferred_model = model_name`). -/
def setPreferredModel (db : DB) (sid : Nat) (model : String) : DB :=
  { db with settings := db.settings.map fun s =>
      if s.setting_id == sid then { s with preferred_model := validModelOr model } else s }

/-- `ChatService.update_model`: reject unknown model names without any
change; otherwise persist the preference, build a fresh agent for the
model and load the current conversation's history into it. -/
def ChatService.update_model (svc : ChatService) (db : DB) (model_name : String) :
    Bool × ChatService × DB :=
  match available_models.find? (fun p => p.1 == model_name) with
  | none => (false, svc, db)
  | some p =>
    let settings1 := { svc.settings with preferred_model := validModelOr model_name }
    let db1 := setPreferredModel db svc.settings.setting_id model_name
    let agent1 : ChatAgent :=
      ⟨p.2, [], systemPromptText, loadHistory db1 svc.conversation.conversation_id⟩
    (true, { svc with settings := settings1, agent := agent1 }, db1)

/-- One entry of the in-memory OTP store (`auth.otp_store[email]`). -/
structure OtpEntry where
  otp : String
  expiry : Nat
deriving Repr, DecidableEq

/-- The process-wide OTP store, keyed by email. -/
abbrev OtpStore := List (String × OtpEntry)

/-- Return triple of `auth.verify_otp`: `(success, user, message)`
(the user is reported by id here). -/
structure VerifyResult where
  success : Bool
  user_id : Option Nat
  message : String
deriving Repr, DecidableEq

/-- `del otp_store[email]`. -/
def otpDelete (store : OtpStore) (email : String) : OtpStore :=
  store.filter fun p => p.1 != email

/-- `auth.verify_otp`: look the entry up, report expiry (deleting the
entry), then a code mismatch, then consume the entry and load the user
(by email, bumping `last_login`). Each failure carries its own message. -/
def verify_otp (store : OtpStore) (db : DB) (now : Nat) (email otp : String) :
    VerifyResult × OtpStore × DB :=
  match store.find? (fun p => p.1 == email) with
  | none => (⟨false, none, "OTP expired or not found"⟩, store, db)
  | some p =>
    if now > p.2.expiry then
      (⟨false, none, "OTP expired"⟩, otpDelete store email, db)
    else if otp != p.2.otp then
      (⟨false, none, "Invalid OTP"⟩, store, db)
    else
      let store1 := otpDelete store email
      match db.users.find? (fun u => u.email == email) with
      | none => (⟨false, none, "User not found"⟩, store1, db)
      | some u =>
        let users1 := db.users.map fun v =>
          if v.user_id == u.user_id then { v with last_login := some now } else v
        (⟨true, some u.user_id, "OTP verified successfully"⟩, store1,
         { db with users := users1 })

/-- `api.verify_otp_and_login`: on failure the endpoint raises an
`HTTPException` whose detail is exactly the message from `verify_otp`
(the surrounding `except Exception` block re-raises it as a 500 whose
detail embeds the same message text, so the payload text is in either
case derived one-to-one from the message; the inner raise is modelled). -/
def verify_otp_and_login (store : OtpStore) (db : DB) (now : Nat)
    (email otp : String) : Except HTTPError Nat :=
  match (verify_otp store db now email otp).1 with
  | ⟨true, some uid, _⟩ => .ok uid
  | ⟨_, _, msg⟩ => .error ⟨401, msg⟩

/-- An orchestrator operation, as named in the specification: a chat turn,
new-conversation, switch, or a direct conversation resolution. The Ollama
outcome of a chat turn is the external input of that turn. -/
inductive Op where
  | sendMessage (text : String) (outcome : OllamaOutcome)
  | newConversation
  | switchConv (cid : Nat)
  | resolveConv (uid : Nat) (cid : Option Nat)
  | saveMessage (cid : Nat) (uid : Option Nat) (role : RoleArg) (text : String)
      (rt tc : Option Nat) (mu : Option String)
deriving Repr, DecidableEq

/-- Orchestrator state: the service object, the database, and the clock
(monotone across operations; each `utcnow()` of an operation reads the
clock, which then advances past the operation). -/
structure OrchState where
  svc : ChatService
  db : DB
  now : Nat
deriving Repr, DecidableEq

/-- One orchestrator operation. Errors propagate to the HTTP layer and
leave the state as the failing function left it. -/
def stepOp (s : OrchState) : Op → OrchState
  | .sendMessage text outcome =>
    let r := s.svc.send_message s.db s.now (s.now + 1) outcome text
    ⟨r.2.1, r.2.2, s.now + 2⟩
  | .newConversation =>
    let r := s.svc.create_new_conversation s.db s.now
    ⟨r.2.1, r.2.2, s.now + 1⟩
  | .switchConv cid =>
    let r := s.svc.switch_conversation s.db cid
    ⟨r.2, s.db, s.now + 1⟩
  | .resolveConv uid cid =>
    let r := get_or_create_conversation s.db s.now uid cid "New Conversation"
    ⟨s.svc, r.2, s.now + 1⟩
  | .saveMessage cid uid role text rt tc mu =>
    let r := save_message s.db s.now cid uid role text rt tc mu
    ⟨s.svc, r.2, s.now + 1⟩

/-- A sequence of orchestrator operations. -/
def runOps (s : OrchState) (ops : List Op) : OrchState := ops.foldl stepOp s

/-- Number of active, non-deleted conversations of one user. -/
def activeCount (db : DB) (uid : Nat) : Nat := (activeConvsOf db uid).length

/-- The single-active-conversation invariant of the specification. -/
def singleActiveInv (db : DB) : Prop := ∀ uid, activeCount db uid ≤ 1

/-! ### Concrete fixtures used by witnesses and counterexamples -/

/-- A registered, non-deleted user. -/
def exUser : UserRow := ⟨1, "alice", "a@b.c", false, none⟩

/-- The user's active conversation. -/
def exConv : Conversation := ⟨1, 1, "New Conversation", .ACTIVE, 0, false⟩

/-- The user's settings row (a well-formed one: the stored theme is the
member name "LIGHT"). -/
def exSettings : UserSettings := ⟨1, 1, "LIGHT", "llama3.2:3b", "English", true⟩

/-- A freshly constructed agent. -/
def exAgent : ChatAgent := ⟨"llama3.2:3b", [], systemPromptText, []⟩

/-- A chat service bound to the user and its active conversation. -/
def exSvc : ChatService := ⟨1, exConv, exSettings, exAgent⟩

/-- A database holding the user, the active conversation and the settings. -/
def exDB : DB := ⟨[exUser], [exConv], [], [exSettings], 2, 1, 2⟩

/-- The database before any conversation or settings row exists. -/
def exDBBare : DB := ⟨[exUser], [], [], [], 1, 1, 1⟩

/-- An OTP store holding one code for the user's email. -/
def exStore : OtpStore := [("a@b.c", ⟨"123456", 100⟩)]

/-- The outcomes on which the gateway does not obtain a generated text:
an exception inside `_call_ollama` (all caught there) or a parsed response
lacking the `response` field. -/
def OllamaOutcome.isFailure : OllamaOutcome → Bool
  | .success _ _ => false
  | _ => true

/-- Ledger invariant: message timestamps are non-decreasing in storage
(insertion) order, and none exceeds the current clock. -/
def ledgerInv (s : OrchState) : Prop :=
  s.db.messages.Pairwise (fun a b => a.timestamp ≤ b.timestamp) ∧
  ∀ m ∈ s.db.messages, m.timestamp ≤ s.now

/-- The conversation row inserted by the create branch of the resolver. -/
def insertedConv (db : DB) (t uid : Nat) (title : String) : Conversation :=
  ⟨db.next_conversation_id, uid, title, ConversationStatus.ACTIVE, t, false⟩

/-- The database after the resolver's insert write. -/
def dbWithInsert (db : DB) (t uid : Nat) (title : String) : DB :=
  { db with conversations := db.conversations ++ [insertedConv db t uid title],
            next_conversation_id := db.next_conversation_id + 1 }

/-- The database after a `last_activity` bump of conversation `cid`. -/
def dbWithBump (db : DB) (cid t : Nat) : DB :=
  { db with conversations := bumpConv cid t db.conversations }

/-- The default settings row `get_user_settings` creates: the theme
column receives the raw string "light" (the enum value, not the member
name "LIGHT" that enum result processing accepts). -/
def defaultSettingsRow (db : DB) (uid : Nat) : UserSettings :=
  ⟨db.next_setting_id, uid, "light", "llama3.2:3b", "English", true⟩

/-- The database after the lazy settings insert. -/
def dbWithSettings (db : DB) (uid : Nat) : DB :=
  { db with settings := db.settings ++ [defaultSettingsRow db uid],
            next_setting_id := db.next_setting_id + 1 }

/-- The `Message` row built and inserted by a successful `save_message`. -/
def savedMessage (db : DB) (t cid : Nat) (uid : Option Nat) (r : MessageRole)
    (text : String) (rt tc : Option Nat) (mu : Option String) : Message :=
  ⟨db.next_message_id, cid, uid, r, text, t, rt, tc, mu⟩

/-- The database after a successful `save_message` commit: row appended,
parent conversation bumped, message counter advanced. -/
def dbAfterSave (db : DB) (t cid : Nat) (m : Message) : DB :=
  { db with messages := db.messages ++ [m],
            conversations := bumpConv cid t db.conversations,
            next_message_id := db.next_message_id + 1 }

/-- The database after `create_new_conversation` archives the tracked
conversation. -/
def dbArchived (db : DB) (cid : Nat) : DB :=
  { db with conversations := archiveConv cid db.conversations }

/-! ### C3: empty or whitespace-only message text -/

/-- C3: for every text that is empty or whitespace-only, `save_message`
fails with the 400 ValidationError and returns the database unchanged —
no `Message` row is inserted and no `last_activity` is bumped. -/
theorem save_message_blank_text_rejected (db : DB) (t cid : Nat) (uid : Option Nat)
    (role : RoleArg) (text : String) (rt tc : Option Nat) (mu : Option String)
    (h : text = "" ∨ pyStrip text = "") :
    save_message db t cid uid role text rt tc mu =
      (.error ⟨400, "Message text cannot be empty"⟩, db) := by
  have hcond : (text == "" || pyStrip text == "") = true := by
    rcases h with h | h <;> simp [h]
  unfold save_message
  simp [hcond]

/-- C3 witness: a whitespace-only text on the concrete database. -/
theorem save_message_blank_text_rejected_witness :
    pyStrip " \t " = "" ∧
    save_message exDB 9 1 none (.str "user") " \t " none none none =
      (.error ⟨400, "Message text cannot be empty"⟩, exDB) :=
  ⟨by decide,
   save_message_blank_text_rejected exDB 9 1 none (.str "user") " \t " none none none
     (Or.inr (by decide))⟩

/-! ### C4: missing or soft-deleted conversation -/

/-- C4 counterexample: on a conversation id with no existing, non-deleted
row, `save_message` raises status 400 ("Conversation 5 not found"), not a
404-class NotFound as the claim states. -/
theorem save_message_missing_conv_status_counterexample :
    save_message exDB 9 5 none (.str "user") "hi" none none none =
      (.error ⟨400, "Conversation 5 not found"⟩, exDB) ∧ (400 : Nat) ≠ 404 := by
  constructor
  · rfl
  · decide

/-- C4 amended: for every conversation id without an existing, non-deleted
row, `save_message` fails — with a 400-class error, not 404 — and inserts
no row (the database is returned unchanged). -/
theorem save_message_missing_conv_rejected (db : DB) (t cid : Nat) (uid : Option Nat)
    (role : RoleArg) (text : String) (rt tc : Option Nat) (mu : Option String)
    (h : findConvForSave db cid = none) :
    ∃ e : HTTPError, save_message db t cid uid role text rt tc mu = (.error e, db) ∧
      e.status_code = 400 := by
  unfold save_message
  split
  · exact ⟨_, rfl, rfl⟩
  · cases hp : parseRole role with
    | error e => simp [hp]
    | ok r => simp [hp, h]

/-- C4 amended witness: the concrete missing conversation id 5. -/
theorem save_message_missing_conv_rejected_witness :
    findConvForSave exDB 5 = none ∧
    ∃ e : HTTPError,
      save_message exDB 9 5 none (.str "user") "hi" none none none = (.error e, exDB) ∧
      e.status_code = 400 :=
  ⟨by decide,
   save_message_missing_conv_rejected exDB 9 5 none (.str "user") "hi" none none none
     (by decide)⟩

/-! ### C5: writes of the conversation resolver -/

/-- C5 counterexample: with an existing active conversation and no
conversation id given, the resolver returns the found conversation and the
database completely unchanged — the call performs zero writes (in
particular no `last_activity` bump: the row keeps `last_activity = 0`
though the call ran at clock 9), contradicting "exactly one write
transaction per call". -/
theorem resolver_zero_write_counterexample :
    get_or_create_conversation exDB 9 1 none "New Conversation" = (.ok exConv, exDB) ∧
    exConv.last_activity = 0 := by
  constructor
  · rfl
  · decide

/-- C5 amended: every successful resolver call performs at most one write:
either the database is returned unchanged (an active conversation was
found by search), or exactly the addressed conversation's `last_activity`
is bumped, or exactly one new active conversation row is inserted. -/
theorem resolver_at_most_one_write (db : DB) (t uid : Nat) (cid? : Option Nat)
    (title : String) (hu : (findActiveUser db uid).isSome) :
    (∃ c, get_or_create_conversation db t uid cid? title = (.ok c, db)) ∨
    (∃ cid c, cid? = some cid ∧ findOwnedConv db uid cid = some c ∧
      get_or_create_conversation db t uid cid? title =
        (.ok { c with last_activity := t }, dbWithBump db cid t)) ∨
    (get_or_create_conversation db t uid cid? title =
      (.ok (insertedConv db t uid title), dbWithInsert db t uid title)) := by
  rcases hfa : findActiveUser db uid with _ | u
  · rw [hfa] at hu; simp at hu
  · unfold get_or_create_conversation
    rw [hfa]
    rcases hcid : cid? with _ | cid
    · rcases hpl : pickLatest (activeConvsOf db uid) with _ | c
      · right; right; simp [hpl, insertedConv, dbWithInsert]
      · left; exact ⟨c, by simp [hpl]⟩
    · by_cases hz : cid ≠ 0
      · rcases hfo : findOwnedConv db uid cid with _ | c
        · rcases hpl : pickLatest (activeConvsOf db uid) with _ | c
          · right; right; simp [hz, hfo, hpl, insertedConv, dbWithInsert]
          · left; exact ⟨c, by simp [hz, hfo, hpl]⟩
        · right; left; exact ⟨cid, c, rfl, hfo, by simp [hz, hfo, dbWithBump]⟩
      · rcases hpl : pickLatest (activeConvsOf db uid) with _ | c
        · right; right; simp [hz, hpl, insertedConv, dbWithInsert]
        · left; exact ⟨c, by simp [hz, hpl]⟩

/-- C5 amended witness: the zero-write case on the concrete database. -/
theorem resolver_at_most_one_write_witness :
    (findActiveUser exDB 1).isSome ∧
    ((∃ c, get_or_create_conversation exDB 9 1 none "t" = (.ok c, exDB)) ∨
    (∃ cid c, (none : Option Nat) = some cid ∧ findOwnedConv exDB 1 cid = some c ∧
      get_or_create_conversation exDB 9 1 none "t" =
        (.ok { c with last_activity := 9 }, dbWithBump exDB cid 9)) ∨
    (get_or_create_conversation exDB 9 1 none "t" =
      (.ok (insertedConv exDB 9 1 "t"), dbWithInsert exDB 9 1 "t"))) :=
  ⟨by decide, resolver_at_most_one_write exDB 9 1 none "t" (by decide)⟩

/-! ### C7: the lazy settings default-read -/

/-- C7 (code bug): for an existing, non-deleted user with no settings row,
the settings read persists a row whose theme column holds the raw string
"light" — not a valid `ThemeType` member name — and then raises
`LookupError` from `session.refresh` instead of returning the row; a
second read finds the malformed row and raises the same `LookupError`
while loading it. The claimed clean, idempotent default read fails. -/
theorem settings_default_read_raises (db : DB) (uid : Nat)
    (hu : (findActiveUser db uid).isSome)
    (hs : db.settings.find? (fun s => s.user_id == uid) = none) :
    get_user_settings db uid =
      (.error (.lookupError (enumLookupErrorMsg "light")), dbWithSettings db uid) ∧
    (dbWithSettings db uid).settings = db.settings ++ [defaultSettingsRow db uid] ∧
    (defaultSettingsRow db uid).theme = "light" ∧
    themeOfName (defaultSettingsRow db uid).theme = none ∧
    (defaultSettingsRow db uid).notifications_enabled = true ∧
    (defaultSettingsRow db uid).preferred_model = "llama3.2:3b" ∧
    (get_user_settings (dbWithSettings db uid) uid).1 =
      .error (.lookupError (enumLookupErrorMsg "light")) := by
  rcases hfa : findActiveUser db uid with _ | u
  · rw [hfa] at hu; simp at hu
  · refine ⟨?_, rfl, rfl, rfl, rfl, rfl, ?_⟩
    · unfold get_user_settings
      rw [hfa, hs]
      rfl
    · unfold get_user_settings
      have hfa1 : findActiveUser (dbWithSettings db uid) uid = some u := by
        simpa [findActiveUser, dbWithSettings] using hfa
      rw [hfa1]
      have hfind : (dbWithSettings db uid).settings.find? (fun s => s.user_id == uid) =
          some (defaultSettingsRow db uid) := by
        simp only [dbWithSettings]
        rw [List.find?_append, hs]
        simp [defaultSettingsRow]
      rw [hfind]
      rfl

/-- C7 witness: the fresh user of the bare database — the first read
persists the malformed row and raises; the second read raises too. -/
theorem settings_default_read_raises_witness :
    (findActiveUser exDBBare 1).isSome ∧
    get_user_settings exDBBare 1 =
      (.error (.lookupError (enumLookupErrorMsg "light")), dbWithSettings exDBBare 1) ∧
    (get_user_settings (dbWithSettings exDBBare 1) 1).1 =
      .error (.lookupError (enumLookupErrorMsg "light")) :=
  ⟨by decide,
   (settings_default_read_raises exDBBare 1 (by decide) (by decide)).1,
   (settings_default_read_raises exDBBare 1 (by decide) (by decide)).2.2.2.2.2.2⟩

/-! ### C8: OTP failure payloads -/

/-- C8 counterexample: a wrong code and an expired code produce different
payloads ("Invalid OTP" vs "OTP expired"), both internally and at the
login endpoint — the payload does reveal which cause occurred, against the
claimed generic single message. -/
theorem otp_failure_payload_counterexample :
    (verify_otp exStore exDB 50 "a@b.c" "999999").1.message = "Invalid OTP" ∧
    (verify_otp exStore exDB 200 "a@b.c" "123456").1.message = "OTP expired" ∧
    verify_otp_and_login exStore exDB 50 "a@b.c" "999999" = .error ⟨401, "Invalid OTP"⟩ ∧
    verify_otp_and_login exStore exDB 200 "a@b.c" "123456" = .error ⟨401, "OTP expired"⟩ ∧
    ("Invalid OTP" : String) ≠ "OTP expired" :=
  ⟨rfl, rfl, rfl, rfl, by decide⟩

/-- C8 amended: failed OTP attempts are rejected, but the payload
distinguishes the causes: with a stored entry, an expired code yields
"OTP expired" while a wrong, unexpired code yields "Invalid OTP". -/
theorem otp_failure_payloads_distinguish (store : OtpStore) (db : DB) (now : Nat)
    (email otp : String) (pr : String × OtpEntry)
    (hfind : store.find? (fun p => p.1 == email) = some pr) :
    (now > pr.2.expiry →
      verify_otp_and_login store db now email otp = .error ⟨401, "OTP expired"⟩) ∧
    (now ≤ pr.2.expiry → otp ≠ pr.2.otp →
      verify_otp_and_login store db now email otp = .error ⟨401, "Invalid OTP"⟩) := by
  constructor
  · intro hexp
    unfold verify_otp_and_login verify_otp
    rw [hfind]
    simp [hexp]
  · intro hexp hne
    unfold verify_otp_and_login verify_otp
    rw [hfind]
    have h1 : ¬ now > pr.2.expiry := by omega
    simp [h1, hne]

/-- C8 amended witness: both failure causes on the concrete store. -/
theorem otp_failure_payloads_distinguish_witness :
    verify_otp_and_login exStore exDB 200 "a@b.c" "123456" = .error ⟨401, "OTP expired"⟩ ∧
    verify_otp_and_login exStore exDB 50 "a@b.c" "999999" = .error ⟨401, "Invalid OTP"⟩ :=
  ⟨(otp_failure_payloads_distinguish exStore exDB 200 "a@b.c" "123456"
      ("a@b.c", ⟨"123456", 100⟩) (by decide)).1 (by decide),
   (otp_failure_payloads_distinguish exStore exDB 50 "a@b.c" "999999"
      ("a@b.c", ⟨"123456", 100⟩) (by decide)).2 (by decide) (by decide)⟩

/-! ### C9: OTPs are single-use -/

/-- Looking an email up after its entry was deleted finds nothing. -/
theorem otpDelete_find_none (store : OtpStore) (email : String) :
    (otpDelete store email).find? (fun p => p.1 == email) = none := by
  rw [List.find?_eq_none]
  intro x hx
  have hne := (List.mem_filter.mp hx).2
  simpa using hne

/-- A successful verification consumed the entry from the store. -/
theorem verify_otp_success_store (store : OtpStore) (db : DB) (now : Nat)
    (email otp : String) (h : (verify_otp store db now email otp).1.success = true) :
    (verify_otp store db now email otp).2.1 = otpDelete store email := by
  unfold verify_otp at h ⊢
  rcases hf : store.find? (fun p => p.1 == email) with _ | pr
  · rw [hf] at h; simp at h
  · rw [hf] at h ⊢
    by_cases he : now > pr.2.expiry
    · simp [he] at h
    · simp only [if_neg he] at h ⊢
      by_cases ho : (otp != pr.2.otp) = true
      · simp [ho] at h
      · simp only [Bool.not_eq_true] at ho
        simp only [ho] at h ⊢
        rcases hu : db.users.find? (fun u => u.email == email) with _ | u <;>
          rw [hu] <;> rfl

/-- C9: a stored OTP is single-use: after a successful verification the
entry is gone, so a second attempt with the same code fails with the
not-found result. -/
theorem otp_single_use (store : OtpStore) (db : DB) (t1 t2 : Nat) (email otp : String)
    (h : (verify_otp store db t1 email otp).1.success = true) :
    (verify_otp (verify_otp store db t1 email otp).2.1
       (verify_otp store db t1 email otp).2.2 t2 email otp).1.success = false ∧
    (verify_otp (verify_otp store db t1 email otp).2.1
       (verify_otp store db t1 email otp).2.2 t2 email otp).1.message =
      "OTP expired or not found" := by
  rw [verify_otp_success_store store db t1 email otp h]
  unfold verify_otp
  rw [otpDelete_find_none]
  exact ⟨rfl, rfl⟩

/-- C9 witness: verify succeeds at clock 50, the retry fails. -/
theorem otp_single_use_witness :
    (verify_otp exStore exDB 50 "a@b.c" "123456").1.success = true ∧
    (verify_otp (verify_otp exStore exDB 50 "a@b.c" "123456").2.1
       (verify_otp exStore exDB 50 "a@b.c" "123456").2.2 60 "a@b.c" "123456").1.success =
      false :=
  ⟨by decide, (otp_single_use exStore exDB 50 60 "a@b.c" "123456" (by decide)).1⟩

/-! ### C10: model update frame property -/

/-- C10: `update_model` with an unknown model name returns `False` and
changes nothing — settings, agent and loaded history are left as they
were; with a known name it persists the preference, returns `True`, and
replaces the agent by a fresh one for that model holding the current
conversation's history. -/
theorem update_model_frame (svc : ChatService) (db : DB) (model_name : String) :
    (available_models.find? (fun p => p.1 == model_name) = none →
      svc.update_model db model_name = (false, svc, db)) ∧
    (∀ pr : String × String, available_models.find? (fun p => p.1 == model_name) = some pr →
      ∃ svc1 : ChatService, svc.update_model db model_name =
          (true, svc1, setPreferredModel db svc.settings.setting_id model_name) ∧
        svc1.settings.preferred_model = model_name ∧
        svc1.agent.model_name = pr.2 ∧
        svc1.agent.context = [] ∧
        svc1.agent.conversation_history =
          loadHistory (setPreferredModel db svc.settings.setting_id model_name)
            svc.conversation.conversation_id ∧
        svc1.user_id = svc.user_id ∧ svc1.conversation = svc.conversation) := by
  constructor
  · intro h
    unfold ChatService.update_model
    rw [h]
  · intro pr h
    have hmem := List.mem_of_find?_eq_some h
    have hkey : (pr.1 == model_name) = true := by
      have := List.find?_some h
      simpa using this
    have hne : model_name ≠ "" := by
      simp only [available_models, List.mem_cons, List.mem_singleton,
        List.not_mem_nil, or_false] at hmem
      have h1 : pr.1 = model_name := by simpa using hkey
      rcases hmem with h2 | h2 <;> rw [h2] at h1 <;> simp at h1 <;> simp [← h1]
    have hvm : validModelOr model_name = model_name := by
      simp [validModelOr, hne]
    unfold ChatService.update_model
    rw [h]
    exact ⟨_, rfl, by simp [hvm], rfl, rfl, rfl, rfl, rfl⟩

/-- C10 witness: the unknown name "nope" is rejected without change, and
the known name "gemma3" is applied. -/
theorem update_model_frame_witness :
    exSvc.update_model exDB "nope" = (false, exSvc, exDB) ∧
    (∃ svc1 : ChatService, exSvc.update_model exDB "gemma3" =
        (true, svc1, setPreferredModel exDB exSvc.settings.setting_id "gemma3") ∧
      svc1.settings.preferred_model = "gemma3" ∧
      svc1.agent.model_name = ("gemma3", "gemma3").2 ∧
      svc1.agent.context = [] ∧
      svc1.agent.conversation_history =
        loadHistory (setPreferredModel exDB exSvc.settings.setting_id "gemma3")
          exSvc.conversation.conversation_id ∧
      svc1.user_id = exSvc.user_id ∧ svc1.conversation = exSvc.conversation) :=
  ⟨(update_model_frame exSvc exDB "nope").1 (by decide),
   (update_model_frame exSvc exDB "gemma3").2 ("gemma3", "gemma3") (by decide)⟩

/-! ### C1: failed model call never loses the chat turn -/

/-- A concatenation with a non-empty left part is non-empty. -/
theorem append_ne_empty_left (s t : String) (h : s ≠ "") : s ++ t ≠ "" := by
  intro he
  apply h
  have hd := congrArg String.data he
  rw [String.data_append] at hd
  exact String.ext (List.append_eq_nil.mp hd).1

/-- Every failure outcome produces a non-empty gateway error string. -/
theorem errorText_ne_empty (o : OllamaOutcome) (ho : o.isFailure = true) :
    o.errorText ≠ "" := by
  cases o with
  | success r ctx => simp [OllamaOutcome.isFailure] at ho
  | missingResponseField m => exact append_ne_empty_left _ m (by decide)
  | jsonDecodeError m => exact append_ne_empty_left _ m (by decide)
  | connectionError m => exact append_ne_empty_left _ m (by decide)
  | requestError m => exact append_ne_empty_left _ m (by decide)
  | unexpectedError m => exact append_ne_empty_left _ m (by decide)

/-- On every failure outcome, `chat` returns the gateway error string. -/
theorem chat_failure (agent : ChatAgent) (message : String) (cl : Nat)
    (o : OllamaOutcome) (ho : o.isFailure = true) :
    (agent.chat message cl o).1 = o.errorText := by
  have hne := errorText_ne_empty o ho
  unfold ChatAgent.chat ChatAgent.call_ollama
  cases o with
  | success r ctx => simp [OllamaOutcome.isFailure] at ho
  | missingResponseField m => simp_all
  | jsonDecodeError m => simp_all
  | connectionError m => simp_all
  | requestError m => simp_all
  | unexpectedError m => simp_all

/-- A prefix check against a concatenation only inspects the left part
when that part is at least as long as the prefix. -/
theorem isPrefixOf_append_of_le (p x y : List Char) (h : p.length ≤ x.length) :
    p.isPrefixOf (x ++ y) = p.isPrefixOf x := by
  induction p generalizing x with
  | nil => simp [List.isPrefixOf]
  | cons a p ih =>
    cases x with
    | nil => simp at h
    | cons b x =>
      simp only [List.cons_append, List.isPrefixOf, List.append_eq]
      rw [ih x (by simpa using h)]

/-- `pyStartsWith` on a concatenation with a long enough left part. -/
theorem pyStartsWith_append (x m p : String) (h : p.data.length ≤ x.data.length) :
    pyStartsWith (x ++ m) p = pyStartsWith x p := by
  unfold pyStartsWith
  rw [String.data_append]
  exact isPrefixOf_append_of_le _ _ _ h

/-- An element a whitespace test rejects survives `dropWhile`. -/
theorem mem_dropWhile_of_not {α : Type} (p : α → Bool) (l : List α) (c : α)
    (hm : c ∈ l) (hc : p c = false) : c ∈ l.dropWhile p := by
  induction l with
  | nil => cases hm
  | cons a l ih =>
    rw [List.dropWhile_cons]
    by_cases h : p a = true
    · rw [if_pos h]
      rcases List.mem_cons.mp hm with rfl | hm2
      · rw [hc] at h; cases h
      · exact ih hm2
    · rw [if_neg h]
      exact hm

/-- A string holding some non-whitespace character does not strip to
the empty string. -/
theorem pyStrip_ne_empty (s : String) (c : Char) (hm : c ∈ s.data)
    (hw : c.isWhitespace = false) : pyStrip s ≠ "" := by
  intro h
  have hd : ((s.data.dropWhile Char.isWhitespace).reverse.dropWhile
      Char.isWhitespace).reverse = [] := congrArg String.data h
  have h1 : c ∈ s.data.dropWhile Char.isWhitespace := mem_dropWhile_of_not _ _ _ hm hw
  have h2 : c ∈ (s.data.dropWhile Char.isWhitespace).reverse := List.mem_reverse.mpr h1
  have h3 := mem_dropWhile_of_not _ _ _ h2 hw
  rw [List.reverse_eq_nil_iff.mp hd] at h3
  cases h3

/-- Shape of a successful `save_message`. -/
theorem save_message_ok (db : DB) (t cid : Nat) (uid : Option Nat) (role : RoleArg)
    (r : MessageRole) (text : String) (rt tc : Option Nat) (mu : Option String)
    (htext : (text == "" || pyStrip text == "") = false)
    (hrole : parseRole role = .ok r) (c0 : Conversation)
    (hconv : findConvForSave db cid = some c0) :
    save_message db t cid uid role text rt tc mu =
      (.ok (savedMessage db t cid uid r text rt tc mu),
       dbAfterSave db t cid (savedMessage db t cid uid r text rt tc mu)) := by
  unfold save_message
  rw [htext, hrole, hconv]
  rfl

/-- `find?` commutes with a map that does not change the tested fields. -/
theorem find?_map_of_pred_eq {α : Type} (f : α → α) (p : α → Bool)
    (hf : ∀ a, p (f a) = p a) (l : List α) :
    (l.map f).find? p = (l.find? p).map f := by
  induction l with
  | nil => rfl
  | cons a l ih =>
    by_cases h : p a = true
    · rw [List.map_cons, List.find?_cons_of_pos _ (by rw [hf]; exact h),
        List.find?_cons_of_pos _ h, Option.map_some']
    · rw [List.map_cons, List.find?_cons_of_neg _ (by rw [hf]; exact h),
        List.find?_cons_of_neg _ h, ih]

/-- The conversation `save_message` addressed is still found after its
commit (the bump changes only `last_activity`). -/
theorem findConvForSave_dbAfterSave (db : DB) (t cid : Nat) (m : Message)
    (c0 : Conversation) (h : findConvForSave db cid = some c0) :
    findConvForSave (dbAfterSave db t cid m) cid =
      some (if c0.conversation_id == cid then { c0 with last_activity := t } else c0) := by
  show (bumpConv cid t db.conversations).find?
    (fun c => c.conversation_id == cid && !c.is_deleted) = _
  unfold bumpConv
  rw [find?_map_of_pred_eq _ _ (fun c => by split <;> rfl) db.conversations]
  unfold findConvForSave at h
  rw [h, Option.map_some']

/-- C1 (code bug): every `ChatService.send_message` call — in particular
every chat turn whose gateway outcome would lack the `response` field —
raises the wrapper's TypeError before any row is written: the user
message is not persisted, the conversation's message count rises by 0,
not 2, and the chat turn is lost (a 500 to the caller). -/
theorem chat_turn_lost (svc : ChatService) (db : DB) (t0 t1 : Nat)
    (o : OllamaOutcome) (text : String) :
    svc.send_message db t0 t1 o text = (.error saveMessageDbKwError, svc, db) ∧
    (svc.send_message db t0 t1 o text).2.2.messages = db.messages ∧
    (msgsOf (svc.send_message db t0 t1 o text).2.2
        svc.conversation.conversation_id).length =
      (msgsOf db svc.conversation.conversation_id).length :=
  ⟨rfl, rfl, rfl⟩

/-! ### C2: at most one active conversation per user -/

/-- A field-preserving map does not change the filtered count. -/
theorem length_filter_map_eq {α : Type} (f : α → α) (p : α → Bool)
    (hf : ∀ a, p (f a) = p a) (l : List α) :
    ((l.map f).filter p).length = (l.filter p).length := by
  induction l with
  | nil => rfl
  | cons a l ih =>
    simp only [List.map_cons, List.filter_cons, hf]
    split <;> simp [ih]

/-- A map that can only turn the predicate off does not raise the count. -/
theorem length_filter_map_le {α : Type} (f : α → α) (p : α → Bool)
    (hf : ∀ a, p (f a) = true → p a = true) (l : List α) :
    ((l.map f).filter p).length ≤ (l.filter p).length := by
  induction l with
  | nil => exact Nat.le_refl _
  | cons a l ih =>
    simp only [List.map_cons, List.filter_cons]
    by_cases h : p (f a) = true
    · rw [if_pos h, if_pos (hf a h)]
      simpa using ih
    · rw [if_neg h]
      split
    
      · exact Nat.le_succ_of_le ih
      · exact ih

/-- A `last_activity` bump keeps each user's active count. -/
theorem activeFilter_bump (l : List Conversation) (cid t uid : Nat) :
    ((bumpConv cid t l).filter (isActiveFor uid)).length =
      (l.filter (isActiveFor uid)).length := by
  unfold bumpConv
  exact length_filter_map_eq _ _ (fun c => by split <;> rfl) l

/-- Archiving a conversation cannot raise any user's active count. -/
theorem activeFilter_archive (l : List Conversation) (cid uid : Nat) :
    ((archiveConv cid l).filter (isActiveFor uid)).length ≤
      (l.filter (isActiveFor uid)).length := by
  unfold archiveConv
  apply length_filter_map_le
  intro c hc
  by_cases h : (c.conversation_id == cid) = true
  · rw [if_pos h] at hc
    exfalso
    simp [isActiveFor] at hc
  · rw [if_neg h] at hc
    exact hc

/-- Appending one row adds its own contribution to the count. -/
theorem activeFilter_append (l : List Conversation) (c : Conversation) (uid : Nat) :
    ((l ++ [c]).filter (isActiveFor uid)).length =
      (l.filter (isActiveFor uid)).length + (if isActiveFor uid c then 1 else 0) := by
  rw [List.filter_append, List.length_append]
  by_cases h : isActiveFor uid c = true <;> simp [List.filter, h]

/-- `ORDER BY ... first()` returns nothing only from an empty result set. -/
theorem pickLatest_none (l : List Conversation) (h : pickLatest l = none) : l = [] := by
  cases l with
  | nil => rfl
  | cons c cs =>
    exfalso
    unfold pickLatest at h
    rcases hp : pickLatest cs with _ | d <;> rw [hp] at h
    · cases h
    · have h2 : (if d.last_activity > c.last_activity then some d else some c) =
          (none : Option Conversation) := h
      by_cases hlt : d.last_activity > c.last_activity
      · rw [if_pos hlt] at h2; cases h2
      · rw [if_neg hlt] at h2; cases h2

/-- The resolver preserves the at-most-one-active invariant. -/
theorem get_or_create_activeCount (db : DB) (t uid0 : Nat) (cid? : Option Nat)
    (title : String) (h : ∀ u, activeCount db u ≤ 1) :
    ∀ u, activeCount (get_or_create_conversation db t uid0 cid? title).2 u ≤ 1 := by
  have hcreate : pickLatest (activeConvsOf db uid0) = none →
      ∀ u, activeCount (dbWithInsert db t uid0 title) u ≤ 1 := by
    intro hpl u
    have hempty : activeConvsOf db uid0 = [] := pickLatest_none _ hpl
    show ((db.conversations ++ [insertedConv db t uid0 title]).filter (isActiveFor u)).length ≤ 1
    rw [activeFilter_append]
    by_cases hu : u = uid0
    · subst hu
      have h0 : (db.conversations.filter (isActiveFor u)).length = 0 := by
        have : db.conversations.filter (isActiveFor u) = [] := hempty
        rw [this]
        rfl
      rw [h0]
      split <;> simp
    · have hni : isActiveFor u (insertedConv db t uid0 title) = false := by
        simp [isActiveFor, insertedConv]
        intro hq
        exact absurd hq.symm hu
      rw [hni]
      simpa using h u
  intro u
  unfold get_or_create_conversation
  rcases hfa : findActiveUser db uid0 with _ | usr
  · exact h u
  · rcases hcid : cid? with _ | cid
    · rcases hpl : pickLatest (activeConvsOf db uid0) with _ | c
      · exact hcreate hpl u
      · exact h u
    · by_cases hz : cid ≠ 0
      · simp only [if_pos hz]
        rcases hfo : findOwnedConv db uid0 cid with _ | c
        · rcases hpl : pickLatest (activeConvsOf db uid0) with _ | c
          · exact hcreate hpl u
          · exact h u
        · show ((bumpConv cid t db.conversations).filter (isActiveFor u)).length ≤ 1
          rw [activeFilter_bump]
          exact h u
      · simp only [if_neg hz]
        rcases hpl : pickLatest (activeConvsOf db uid0) with _ | c
        · exact hcreate hpl u
        · exact h u

/-- `save_message` never changes any user's active count (it only bumps
`last_activity` and appends a message row). -/
theorem save_message_activeCount (db : DB) (t cid : Nat) (uid : Option Nat)
    (role : RoleArg) (text : String) (rt tc : Option Nat) (mu : Option String)
    (u : Nat) :
    activeCount (save_message db t cid uid role text rt tc mu).2 u = activeCount db u := by
  unfold save_message
  split
  · rfl
  · split
    · rfl
    · split
      · rfl
      · show ((bumpConv cid t db.conversations).filter (isActiveFor u)).length = _
        rw [activeFilter_bump]
        rfl

/-- Interface form of `save_message_activeCount` keyed on the result pair. -/
theorem save_message_snd_activeCount {db : DB} {t cid : Nat} {uid : Option Nat}
    {role : RoleArg} {text : String} {rt tc : Option Nat} {mu : Option String}
    {r : Except HTTPError Message} {db2 : DB}
    (h : save_message db t cid uid role text rt tc mu = (r, db2)) (u : Nat) :
    activeCount db2 u = activeCount db u := by
  have h2 := save_message_activeCount db t cid uid role text rt tc mu u
  rw [h] at h2
  exact h2

/-- A chat turn never changes any user's active count. -/
theorem send_message_activeCount (svc : ChatService) (db : DB) (t0 t1 : Nat)
    (o : OllamaOutcome) (text : String) (u : Nat) :
    activeCount (svc.send_message db t0 t1 o text).2.2 u = activeCount db u := rfl

/-- Interface form of `get_or_create_activeCount` keyed on the result pair. -/
theorem get_or_create_snd_activeCount {db : DB} {t uid : Nat} {cid? : Option Nat}
    {title : String} {r : Except HTTPError Conversation} {db2 : DB}
    (h : get_or_create_conversation db t uid cid? title = (r, db2))
    (hinv : ∀ u, activeCount db u ≤ 1) (u : Nat) : activeCount db2 u ≤ 1 := by
  have h2 := get_or_create_activeCount db t uid cid? title hinv u
  rw [h] at h2
  exact h2

/-- Creating a new conversation (archive, then resolve) preserves the
at-most-one-active invariant. -/
theorem create_new_conversation_activeCount (svc : ChatService) (db : DB) (t : Nat)
    (h : ∀ u, activeCount db u ≤ 1) :
    ∀ u, activeCount (svc.create_new_conversation db t).2.2 u ≤ 1 := by
  have harch : ∀ u2, activeCount (dbArchived db svc.conversation.conversation_id) u2 ≤ 1 := by
    intro u2
    have hle : activeCount (dbArchived db svc.conversation.conversation_id) u2 ≤
        activeCount db u2 :=
      activeFilter_archive db.conversations svc.conversation.conversation_id u2
    exact Nat.le_trans hle (h u2)
  intro u
  unfold ChatService.create_new_conversation
  dsimp only
  split
  · rename_i e db2 h2
    exact get_or_create_snd_activeCount h2 harch u
  · rename_i c db2 h2
    exact get_or_create_snd_activeCount h2 harch u

/-- Every orchestrator operation preserves the at-most-one-active invariant. -/
theorem stepOp_activeCount (s : OrchState) (op : Op)
    (h : ∀ u, activeCount s.db u ≤ 1) : ∀ u, activeCount (stepOp s op).db u ≤ 1 := by
  cases op with
  | sendMessage text o =>
    intro u
    show activeCount (s.svc.send_message s.db s.now (s.now + 1) o text).2.2 u ≤ 1
    rw [send_message_activeCount]
    exact h u
  | newConversation =>
    exact create_new_conversation_activeCount s.svc s.db s.now h
  | switchConv cid => exact h
  | resolveConv uid cid =>
    exact get_or_create_activeCount s.db s.now uid cid "New Conversation" h
  | saveMessage cid uid role text rt tc mu =>
    intro u
    show activeCount (save_message s.db s.now cid uid role text rt tc mu).2 u ≤ 1
    rw [save_message_activeCount]
    exact h u

/-- The invariant holds after any operation sequence. -/
theorem runOps_activeCount (ops : List Op) (s : OrchState)
    (h : ∀ u, activeCount s.db u ≤ 1) : ∀ u, activeCount (runOps s ops).db u ≤ 1 := by
  induction ops generalizing s with
  | nil => exact h
  | cons op ops ih => exact ih (stepOp s op) (stepOp_activeCount s op h)

/-- C2: starting from any state in which each user has at most one active,
non-deleted conversation, after any sequence of orchestrator operations
(`send_message`, `create_new_conversation`, `switch_conversation`,
`get_or_create_conversation`) each user still has at most one. -/
theorem single_active_conversation_invariant (s : OrchState) (ops : List Op)
    (h : singleActiveInv s.db) : singleActiveInv (runOps s ops).db :=
  runOps_activeCount ops s h

/-- C2 witness: a concrete run from the bare database through a chat turn,
a new conversation and a switch. -/
theorem single_active_conversation_invariant_witness :
    singleActiveInv exDBBare ∧
    singleActiveInv (runOps ⟨exSvc, exDBBare, 0⟩
      [.resolveConv 1 none, .sendMessage "hi" (.success "yo" none),
       .newConversation, .switchConv 1]).db :=
  have h0 : singleActiveInv exDBBare := by
    intro u
    exact Nat.zero_le 1
  ⟨h0, single_active_conversation_invariant ⟨exSvc, exDBBare, 0⟩
    [.resolveConv 1 none, .sendMessage "hi" (.success "yo" none),
     .newConversation, .switchConv 1] h0⟩

/-! ### C6: non-decreasing timestamps in read-back order -/

/-- `save_message` leaves the message list unchanged (failure) or appends
exactly one row stamped with the call's clock. -/
theorem save_message_messages (db : DB) (t cid : Nat) (uid : Option Nat)
    (role : RoleArg) (text : String) (rt tc : Option Nat) (mu : Option String) :
    (save_message db t cid uid role text rt tc mu).2.messages = db.messages ∨
    ∃ m : Message, m.timestamp = t ∧
      (save_message db t cid uid role text rt tc mu).2.messages = db.messages ++ [m] := by
  unfold save_message
  split
  · left; rfl
  · split
    · left; rfl
    · split
      · left; rfl
      · right; exact ⟨_, rfl, rfl⟩

/-- One committed or rolled-back `save_message` keeps timestamps
non-decreasing and bounded by its clock. -/
theorem save_preserves_mono {db db2 : DB} {r : Except HTTPError Message}
    {t cid : Nat} {uid : Option Nat} {role : RoleArg} {text : String}
    {rt tc : Option Nat} {mu : Option String}
    (h : save_message db t cid uid role text rt tc mu = (r, db2))
    (hmono : db.messages.Pairwise (fun a b => a.timestamp ≤ b.timestamp))
    (hclock : ∀ m ∈ db.messages, m.timestamp ≤ t) :
    db2.messages.Pairwise (fun a b => a.timestamp ≤ b.timestamp) ∧
    ∀ m ∈ db2.messages, m.timestamp ≤ t := by
  have hs := save_message_messages db t cid uid role text rt tc mu
  rw [h] at hs
  rcases hs with hs | ⟨m, hm, hs⟩
  · rw [hs]
    exact ⟨hmono, hclock⟩
  · rw [hs]
    constructor
    · rw [List.pairwise_append]
      refine ⟨hmono, List.pairwise_singleton _ _, ?_⟩
      intro a ha b hb
      rw [List.mem_singleton.mp hb, hm]
      exact hclock a ha
    · intro m2 hm2
      rcases List.mem_append.mp hm2 with h2 | h2
      · exact hclock m2 h2
      · rw [List.mem_singleton.mp h2, hm]

/-- The resolver never touches the message table. -/
theorem get_or_create_messages (db : DB) (t uid : Nat) (cid? : Option Nat)
    (title : String) :
    (get_or_create_conversation db t uid cid? title).2.messages = db.messages := by
  unfold get_or_create_conversation
  split
  · rfl
  · dsimp only
    split
    · split
      · split
        · rfl
        · split
          · rfl
          · rfl
      · split
        · rfl
        · rfl
    · split
      · rfl
      · rfl

/-- Interface form of `get_or_create_messages` keyed on the result pair. -/
theorem get_or_create_snd_messages {db : DB} {t uid : Nat} {cid? : Option Nat}
    {title : String} {r : Except HTTPError Conversation} {db2 : DB}
    (h : get_or_create_conversation db t uid cid? title = (r, db2)) :
    db2.messages = db.messages := by
  have h2 := get_or_create_messages db t uid cid? title
  rw [h] at h2
  exact h2

/-- `create_new_conversation` never touches the message table. -/
theorem create_new_conversation_messages (svc : ChatService) (db : DB) (t : Nat) :
    (svc.create_new_conversation db t).2.2.messages = db.messages := by
  unfold ChatService.create_new_conversation
  dsimp only
  split
  · rename_i e db2 h2
    exact (get_or_create_snd_messages h2 : db2.messages = _)
  · rename_i c db2 h2
    exact (get_or_create_snd_messages h2 : db2.messages = _)

/-- Introduction form of the ledger invariant. -/
theorem ledgerInv_mk (svc : ChatService) (db : DB) (now : Nat)
    (h1 : db.messages.Pairwise (fun a b => a.timestamp ≤ b.timestamp))
    (h2 : ∀ m ∈ db.messages, m.timestamp ≤ now) : ledgerInv ⟨svc, db, now⟩ :=
  ⟨h1, h2⟩

/-- Every orchestrator operation preserves the ledger invariant. -/
theorem stepOp_ledgerInv (s : OrchState) (op : Op) (h : ledgerInv s) :
    ledgerInv (stepOp s op) := by
  obtain ⟨hmono, hclock⟩ := h
  cases op with
  | sendMessage text o =>
    exact ledgerInv_mk _ _ _ hmono
      (fun m hm => Nat.le_trans (hclock m hm) (Nat.le_add_right _ 2))
  | newConversation =>
    have hmsg := create_new_conversation_messages s.svc s.db s.now
    refine ledgerInv_mk _ _ _ ?_ ?_
    · rw [hmsg]
      exact hmono
    · intro m hm
      rw [hmsg] at hm
      exact Nat.le_trans (hclock m hm) (Nat.le_succ _)
  | switchConv cid =>
    exact ledgerInv_mk _ _ _ hmono
      (fun m hm => Nat.le_trans (hclock m hm) (Nat.le_succ _))
  | saveMessage cid uid role text rt tc mu =>
    show ledgerInv ⟨_, (save_message s.db s.now cid uid role text rt tc mu).2, s.now + 1⟩
    rcases hsv : save_message s.db s.now cid uid role text rt tc mu with ⟨r, db2⟩
    have ha := save_preserves_mono hsv hmono hclock
    exact ledgerInv_mk _ _ _ ha.1
      (fun m hm => Nat.le_trans (ha.2 m hm) (Nat.le_succ _))
  | resolveConv uid cid =>
    have hmsg := get_or_create_messages s.db s.now uid cid "New Conversation"
    refine ledgerInv_mk _ _ _ ?_ ?_
    · rw [hmsg]
      exact hmono
    · intro m hm
      rw [hmsg] at hm
      exact Nat.le_trans (hclock m hm) (Nat.le_succ _)

/-- The ledger invariant holds after any operation sequence. -/
theorem runOps_ledgerInv (ops : List Op) (s : OrchState) (h : ledgerInv s) :
    ledgerInv (runOps s ops) := by
  induction ops generalizing s with
  | nil => exact h
  | cons op ops ih => exact ih (stepOp s op) (stepOp_ledgerInv s op h)

/-- C6: after any operation sequence from a state satisfying the ledger
invariant, `get_conversation_history` returns exactly the conversation's
rows in insertion order, and their timestamps are non-decreasing. -/
theorem history_timestamps_sorted (s : OrchState) (ops : List Op) (h : ledgerInv s)
    (svcq : ChatService) :
    svcq.get_conversation_history (runOps s ops).db =
      msgsOf (runOps s ops).db svcq.conversation.conversation_id ∧
    (svcq.get_conversation_history (runOps s ops).db).Pairwise
      (fun a b => a.timestamp ≤ b.timestamp) := by
  have hinv := runOps_ledgerInv ops s h
  have hsub : (msgsOf (runOps s ops).db svcq.conversation.conversation_id).Pairwise
      (fun a b => a.timestamp ≤ b.timestamp) :=
    List.Pairwise.sublist (List.filter_sublist _) hinv.1
  have hsort : orderByTimestamp (msgsOf (runOps s ops).db
      svcq.conversation.conversation_id) =
      msgsOf (runOps s ops).db svcq.conversation.conversation_id := by
    unfold orderByTimestamp
    exact List.mergeSort_of_sorted (hsub.imp (fun hab => by simpa using hab))
  constructor
  · show orderByTimestamp _ = _
    exact hsort
  · show (orderByTimestamp _).Pairwise _
    rw [hsort]
    exact hsub

/-- C6 witness: two chat turns on the bare database. -/
theorem history_timestamps_sorted_witness :
    ledgerInv ⟨exSvc, exDB, 0⟩ ∧
    (exSvc.get_conversation_history (runOps ⟨exSvc, exDB, 0⟩
        [.sendMessage "a" (.success "x" none),
         .sendMessage "b" (.connectionError "down")]).db =
      msgsOf (runOps ⟨exSvc, exDB, 0⟩
        [.sendMessage "a" (.success "x" none),
         .sendMessage "b" (.connectionError "down")]).db
        exSvc.conversation.conversation_id ∧
    (exSvc.get_conversation_history (runOps ⟨exSvc, exDB, 0⟩
        [.sendMessage "a" (.success "x" none),
         .sendMessage "b" (.connectionError "down")]).db).Pairwise
      (fun a b => a.timestamp ≤ b.timestamp)) :=
  have h0 : ledgerInv ⟨exSvc, exDB, 0⟩ := by
    constructor
    · exact List.Pairwise.nil
    · intro m hm
      cases hm
  ⟨h0, history_timestamps_sorted ⟨exSvc, exDB, 0⟩
    [.sendMessage "a" (.success "x" none),
     .sendMessage "b" (.connectionError "down")] h0 exSvc⟩
